import Mathlib

/-!
Shallow embedding of `app.py` (repository Swallowedin/chatbot_evo), a legal-services
chat assistant.  The embedding follows the source function by function:

* `extraire_mots_cles`              — keyword extraction over a fixed vocabulary,
* `rechercher_prestations_pertinentes` — the lexical ranker (score, filter, stable sort, top 5),
* `generer_questions_clarification` — the clarification-text generator,
* `analyser_avec_gpt`               — fence stripping / JSON parsing / safe default,
* `afficher_prix`, `afficher_prestation_card` — price resolution and card rendering,
* `handle_turn`, `reset_session`    — the Streamlit session-state transitions of `main`.

External effects are passed explicitly: the completion call is an `Except` value,
Python's `json.loads` is a parser parameter, and the iteration order of a Python
`set` (which is not specified and varies across interpreter runs) is an ordering
parameter constrained by `isSetListOf`.
-/

/-- Python `str.split()` whitespace predicate (the ASCII whitespace characters). -/
def isPySpace (c : Char) : Bool :=
  c = ' ' || c = '\t' || c = '\n' || c = '\r' || c = '\x0b' || c = '\x0c'

/-- Worker for `pySplit`: accumulates the current word (reversed) and emits words
at whitespace boundaries, dropping empty words, exactly as Python `str.split()`. -/
def pyWords : List Char → List Char → List String
  | acc, [] => if acc.isEmpty then [] else [String.mk acc.reverse]
  | acc, c :: cs =>
    if isPySpace c then
      if acc.isEmpty then pyWords [] cs else String.mk acc.reverse :: pyWords [] cs
    else
      pyWords (c :: acc) cs

/-- Python `str.split()` with no separator argument: whitespace-delimited tokens,
runs of whitespace collapsed, no empty tokens. -/
def pySplit (s : String) : List String := pyWords [] s.data

/-- Python `str.lower()` on a single character (ASCII range; characters outside
`A`-`Z` are returned unchanged, which matches Python on the ASCII subset used here). -/
def pyCharLower (c : Char) : Char :=
  if 65 ≤ c.toNat ∧ c.toNat ≤ 90 then Char.ofNat (c.toNat + 32) else c

/-- Python `str.lower()`. -/
def pyLower (s : String) : String := String.mk (s.data.map pyCharLower)

/-- Prefix test on character lists (Python `str.startswith`). -/
def lstartsWith : List Char → List Char → Bool
  | [], _ => true
  | _ :: _, [] => false
  | p :: ps, c :: cs => p == c && lstartsWith ps cs

/-- Contiguous-substring test on character lists: does `a` occur inside `l`? -/
def lInfix (a : List Char) : List Char → Bool
  | [] => a.isEmpty
  | c :: cs => lstartsWith a (c :: cs) || lInfix a cs

/-- Python substring test `a in b`. -/
def pyIn (a b : String) : Bool := lInfix a.data b.data

/-- Python `str.strip()` on a character list: drop leading and trailing whitespace. -/
def pyStripL (l : List Char) : List Char :=
  ((l.dropWhile isPySpace).reverse.dropWhile isPySpace).reverse

/-- Python `str.strip()`. -/
def pyStrip (s : String) : String := String.mk (pyStripL s.data)

/-- Python `s.startswith(pre)`. -/
def pyStartswith (s pre : String) : Bool := lstartsWith pre.data s.data

/-- Python slice `s[a:-b]` (for `0 < b`): characters from index `a` up to `len - b`. -/
def pySlice (s : String) (a b : Nat) : String :=
  String.mk ((s.data.drop a).take (s.data.length - b - a))

/-- A catalog entry: `{label, definition, tarif}` (from `prestations.py`'s nested dict). -/
structure Prestation where
  label : String
  definition : String
  tarif : Nat
deriving DecidableEq

/-- A catalog domain: display label plus its prestations keyed by id. -/
structure Domaine where
  label : String
  prestations : List (String × Prestation)
deriving DecidableEq

/-- The catalog returned by `get_prestations()`: an ordered mapping of domain ids. -/
abbrev Catalog := List (String × Domaine)

/-- The fixed legal vocabulary of `extraire_mots_cles` (source lines 87-93). -/
def mots_cles_juridiques : List String :=
  ["contrat", "bail", "commercial", "travail", "licenciement", "création", "société",
   "immobilier", "divorce", "succession", "pénal", "défense", "contentieux",
   "marque", "brevet", "propriété intellectuelle", "RGPD", "données",
   "construction", "liquidation", "redressement", "sauvegarde",
   "association", "fondation", "compliance", "fusion", "acquisition"]

/-- `AssistantJuridique.extraire_mots_cles` (source lines 85-97): lower-case the
input once and keep the vocabulary terms that occur as substrings. -/
def extraire_mots_cles (texte : String) : List String :=
  let texte_lower := pyLower texte
  mots_cles_juridiques.filter (fun mot => pyIn mot texte_lower)

/-- One entry of the ranker's result list (source lines 127-133). -/
structure RankedMatch where
  domaine : String
  domaine_id : String
  prestation_id : String
  prestation : Prestation
  score : Nat
deriving DecidableEq

/-- The per-prestation score accumulation of `rechercher_prestations_pertinentes`
(source lines 106-124), written as the source computes it: a running `score`
starting from the two keyword bonuses, then a pass over the query tokens. -/
def scorePrestation (query_lower : String) (mots_cles : List String)
    (domaine_label : String) (p : Prestation) : Nat :=
  let base :=
    (if mots_cles.any (fun mot => pyIn mot (pyLower p.label)) then 3 else 0) +
    (if mots_cles.any (fun mot => pyIn mot (pyLower p.definition)) then 2 else 0)
  (pySplit query_lower).foldl (fun score mot =>
    if 3 < mot.length then
      score + (if pyIn mot (pyLower p.label) then 4 else 0)
            + (if pyIn mot (pyLower p.definition) then 2 else 0)
            + (if pyIn mot (pyLower domaine_label) then 1 else 0)
    else score) base

/-- The unsorted result accumulation of `rechercher_prestations_pertinentes`
(source lines 101-133): every (domain, prestation) pair in catalog enumeration
order, kept only when its score is positive. -/
def resultatsBruts (cat : Catalog) (query : String) (mots_cles : List String) :
    List RankedMatch :=
  let query_lower := pyLower query
  cat.flatMap (fun d =>
    d.2.prestations.filterMap (fun p =>
      let score := scorePrestation query_lower mots_cles d.2.label p.2
      if 0 < score then
        some ⟨d.2.label, d.1, p.1, p.2, score⟩
      else none))

/-- Stable insertion for descending score order: an element is placed before the
first element whose score does not exceed it, so earlier-inserted elements keep
their position among equals. -/
def insertScoreDesc (x : RankedMatch) : List RankedMatch → List RankedMatch
  | [] => [x]
  | y :: ys => if y.score ≤ x.score then x :: y :: ys else y :: insertScoreDesc x ys

/-- Stable sort by score descending, modelling Python's stable
`list.sort(key=lambda x: x['score'], reverse=True)` (source line 136). -/
def sortScoreDesc : List RankedMatch → List RankedMatch
  | [] => []
  | x :: xs => insertScoreDesc x (sortScoreDesc xs)

/-- `AssistantJuridique.rechercher_prestations_pertinentes` (source lines 99-137):
score every pair, drop zero scores, sort stably by score descending, keep the top 5. -/
def rechercher_prestations_pertinentes (cat : Catalog) (query : String)
    (mots_cles : List String) : List RankedMatch :=
  (sortScoreDesc (resultatsBruts cat query mots_cles)).take 5

/-- The scoring formula exactly as the specification words it (additive sum over
the keyword bonuses and the long query tokens); stated separately from
`scorePrestation` so the two can be compared. -/
def score_spec (query : String) (mots_cles : List String)
    (domaine_label : String) (p : Prestation) : Nat :=
  (if mots_cles.any (fun mot => pyIn mot (pyLower p.label)) then 3 else 0) +
  (if mots_cles.any (fun mot => pyIn mot (pyLower p.definition)) then 2 else 0) +
  (((pySplit (pyLower query)).filter (fun mot => 3 < mot.length)).map (fun mot =>
      (if pyIn mot (pyLower p.label) then 4 else 0) +
      (if pyIn mot (pyLower p.definition) then 2 else 0) +
      (if pyIn mot (pyLower domaine_label) then 1 else 0))).sum

/-- The fixed no-match reply of `generer_questions_clarification` (source line 142). -/
def msgAucunePrestation : String :=
  "Je n\x27ai pas trouvé de prestations correspondant exactement à votre demande. Pouvez-vous me donner plus de détails sur votre situation juridique ?"

/-- The 4-line prompt of the more-than-2-domains branch (source lines 147-152),
as a function of the `domaines_uniques` list it quotes. -/
def questionsPlusDe2Domaines (domaines_uniques : List String) : String :=
  String.intercalate "\n"
    ["Pour mieux vous orienter, pouvez-vous me préciser :",
     "- Votre situation concerne-t-elle plutôt : " ++ String.intercalate ", " (domaines_uniques.take 3) ++ " ?",
     "- S\x27agit-il d\x27une situation urgente ?",
     "- Êtes-vous un particulier ou une entreprise ?"]

/-- The fixed 4-line prompt of the at-most-2-domains branch (source lines 154-159). -/
def questionsPeuDeDomaines : String :=
  String.intercalate "\n"
    ["J\x27ai identifié quelques prestations qui pourraient vous convenir. Pour affiner :",
     "- Pouvez-vous me donner plus de détails sur votre situation ?",
     "- Y a-t-il une urgence particulière ?",
     "- Avez-vous déjà entamé des démarches juridiques ?"]

/-- `AssistantJuridique.generer_questions_clarification` (source lines 139-161).
The source computes `list(set([r['domaine'] for r in resultats]))`; the iteration
order of a Python `set` is unspecified (it varies with the per-process string-hash
seed), so the conversion is passed in as `pySetList`, constrained by `isSetListOf`
where the behaviour depends on it. -/
def generer_questions_clarification (pySetList : List String → List String)
    (resultats : List RankedMatch) (query : String) : String :=
  if resultats.isEmpty then
    msgAucunePrestation
  else
    let domaines_uniques := pySetList (resultats.map (fun r => r.domaine))
    if 2 < domaines_uniques.length then questionsPlusDe2Domaines domaines_uniques
    else questionsPeuDeDomaines

/-- `m` is a possible value of Python `list(set(l))`: duplicate-free and with
exactly the members of `l`, in some unspecified order. -/
def isSetListOf (l m : List String) : Prop := m.Nodup ∧ ∀ x, x ∈ m ↔ x ∈ l

/-- JSON values, the possible results of Python `json.loads`. -/
inductive JValue where
  | null : JValue
  | bool : Bool → JValue
  | num : Int → JValue
  | str : String → JValue
  | arr : List JValue → JValue
  | obj : List (String × JValue) → JValue

/-- The safe-default dictionary returned by the `except` branch of
`analyser_avec_gpt` (source lines 231-237). -/
def safeDefaultResult : JValue :=
  JValue.obj
    [("prestations_recommandees", JValue.arr []),
     ("questions_clarification", JValue.arr [JValue.str "Pouvez-vous reformuler votre demande ?"]),
     ("analyse_situation", JValue.str "Erreur d\x27analyse"),
     ("urgence_detectee", JValue.bool false),
     ("type_client", JValue.str "indetermine")]

/-- The fence-stripping block of `analyser_avec_gpt` (source lines 221-224):
`result_text[7:-3]` after a leading ` ```json `, `result_text[3:-3]` after a
plain ` ``` `, unchanged otherwise. -/
def stripCodeFences (t : String) : String :=
  if pyStartswith t "```json" then pySlice t 7 3
  else if pyStartswith t "```" then pySlice t 3 3
  else t

/-- `AssistantJuridique.analyser_avec_gpt` (source lines 209-237), with its two
external effects made explicit: `completion` is the outcome of the
`client.chat.completions.create` call (`Except.error` for a transport failure),
and `jsonLoads` is Python's `json.loads` (`none` when parsing raises).  Any
failure lands in the `except` branch, which returns `safeDefaultResult`. -/
def analyser_avec_gpt (jsonLoads : String → Option JValue)
    (completion : Except String String) : JValue :=
  match completion with
  | Except.error _ => safeDefaultResult
  | Except.ok content =>
    match jsonLoads (stripCodeFences (pyStrip content)) with
    | some v => v
    | none => safeDefaultResult

/-- Modelled from the spec: `get_facteur_urgence()` lives in `prestations.py`,
which is not under `src/`; the spec fixes the urgency multiplier at 1.5
(and `main` line 365 banners a 50% mark-up), represented exactly as 3/2. -/
def facteur_urgence_num : Nat := 3

/-- Modelled from the spec: denominator of the urgency multiplier 3/2. -/
def facteur_urgence_den : Nat := 2

/-- The price block of `afficher_prestation_card` (source lines 242-250):
`int(tarif * get_facteur_urgence())` truncates toward zero, which on
non-negative integers is `3 * tarif / 2` in natural division (exact for every
tarif whose product stays inside the float53 range). -/
def afficher_prix (tarif : Nat) (urgent : Bool) : Nat × String :=
  if urgent then
    let tarif_urgent := facteur_urgence_num * tarif / facteur_urgence_den
    (tarif_urgent, toString tarif_urgent ++ "€ (urgent) - Normal: " ++ toString tarif ++ "€")
  else
    (tarif, toString tarif ++ "€")

/-- The data rendered by one prestation card (source lines 252-259). -/
structure Carte where
  titre : String
  prix : String
  domaine : String
  description : String
deriving DecidableEq

/-- `afficher_prestation_card` (source lines 239-259) as a value: title, price
tag text, domain and description of the rendered card. -/
def afficher_prestation_card (domaine : String) (p : Prestation) (urgent : Bool) : Carte :=
  ⟨p.label, (afficher_prix p.tarif urgent).2, domaine, p.definition⟩

/-- One recommendation from the model's JSON answer (spec §3 Recommendation). -/
structure Recommandation where
  domaine_id : String
  prestation_id : String
  score_pertinence : Nat
  justification : String
deriving DecidableEq

/-- The guarded catalog lookup of `main`'s display loop (source line 373):
`domaine_id in prestations and prestation_id in prestations[domaine_id]["prestations"]`. -/
def lookupPrestation (cat : Catalog) (domaine_id prestation_id : String) :
    Option (String × Prestation) :=
  match cat.lookup domaine_id with
  | none => none
  | some d =>
    match d.prestations.lookup prestation_id with
    | none => none
    | some p => some (d.label, p)

/-- The display loop of `main` (source lines 367-383): for each recommendation,
render a card when both ids resolve in the catalog and silently skip it otherwise. -/
def afficher_recommandations (cat : Catalog) (urgence : Bool) :
    List Recommandation → List Carte
  | [] => []
  | r :: rs =>
    match lookupPrestation cat r.domaine_id r.prestation_id with
    | some dp => afficher_prestation_card dp.1 dp.2 urgence :: afficher_recommandations cat urgence rs
    | none => afficher_recommandations cat urgence rs

/-- One chat message of `st.session_state.messages`. -/
structure Message where
  role : String
  content : String
deriving DecidableEq

/-- The analysis dictionary as consumed by `main` (spec §3 AnalysisResult). -/
structure AnalysisResult where
  prestations_recommandees : List Recommandation
  questions_clarification : List String
  analyse_situation : String
  urgence_detectee : Bool
  type_client : String
deriving DecidableEq

/-- The per-session Streamlit state touched by `main`: `messages`,
`prestations_actuelles` (absent until first set — `Option`), `urgence_detectee`. -/
structure Session where
  messages : List Message
  prestations_actuelles : Option (List Recommandation)
  urgence_detectee : Bool
deriving DecidableEq

/-- The assistant-reply construction of `main` (source lines 336-353): the
situation summary when non-empty, then a header and 1-based numbered
clarification questions, joined by blank lines. -/
def construire_reponse (analyse : AnalysisResult) : String :=
  let parts1 : List String :=
    if analyse.analyse_situation ≠ "" then
      ["**Analyse de votre situation :** " ++ analyse.analyse_situation]
    else []
  let parts2 : List String :=
    if analyse.questions_clarification.isEmpty then []
    else
      "**Questions pour mieux vous aider :**" ::
      analyse.questions_clarification.enum.map (fun iq => toString (iq.1 + 1) ++ ". " ++ iq.2)
  String.intercalate "\n\n" (parts1 ++ parts2)

/-- One user turn of `main` (source lines 324-356), with the GPT call's result
passed in: append the user message, overwrite the recommendation state only when
the result carries at least one recommendation, append the assistant reply. -/
def handle_turn (s : Session) (user_input : String) (analyse : AnalysisResult) : Session :=
  let s1 : Session := { s with messages := s.messages ++ [⟨"user", user_input⟩] }
  let s2 : Session :=
    if analyse.prestations_recommandees.isEmpty then s1
    else { s1 with prestations_actuelles := some analyse.prestations_recommandees,
                   urgence_detectee := analyse.urgence_detectee }
  { s2 with messages := s2.messages ++ [⟨"assistant", construire_reponse analyse⟩] }

/-- The "Nouvelle conversation" button handler (source lines 300-302): it assigns
`st.session_state.messages = []` and reruns; no other session key is touched. -/
def reset_session (s : Session) : Session := { s with messages := [] }

/-! Concrete fixtures used by witnesses and counterexamples. -/

/-- A small concrete catalog in the shape `get_prestations()` returns. -/
def catTest : Catalog :=
  [("d1", ⟨"Droit commercial", [("p1", ⟨"Bail commercial", "Redaction de bail", 500⟩),
                                ("p2", ⟨"Consultation", "Conseil general", 100⟩)]⟩),
   ("d2", ⟨"Droit du travail", [("p3", ⟨"Licenciement", "Defense bail prudhommes", 800⟩)]⟩)]

/-- A recommendation whose ids resolve in `catTest`. -/
def recValide : Recommandation := ⟨"d1", "p1", 8, "correspond au besoin"⟩

/-- A recommendation whose ids do not resolve in `catTest` (dangling reference). -/
def recOrpheline : Recommandation := ⟨"zzz", "p9", 5, "id inconnu"⟩

/-- A session with history, a current shortlist and the urgency flag raised. -/
def sessionPleine : Session := ⟨[⟨"user", "bonjour"⟩], some [recValide], true⟩

/-- An analysis result carrying one recommendation. -/
def analyseAvecReco : AnalysisResult :=
  ⟨[recValide], ["Quel est le contexte ?"], "Bail commercial a rediger", true, "entreprise"⟩

/-- An analysis result carrying no recommendation. -/
def analyseSansReco : AnalysisResult :=
  ⟨[], ["Pouvez-vous preciser ?"], "Situation floue", false, "indetermine"⟩

/-- Three ranker results spanning three distinct domains. -/
def resTroisDomaines : List RankedMatch :=
  [⟨"Droit commercial", "d1", "p1", ⟨"A", "a", 1⟩, 5⟩,
   ⟨"Droit du travail", "d2", "p2", ⟨"B", "b", 1⟩, 4⟩,
   ⟨"Droit de la famille", "d3", "p3", ⟨"C", "c", 1⟩, 3⟩]

/-- One possible iteration order of the Python set of those three domain labels. -/
def setOrder1 : List String → List String :=
  fun _ => ["Droit commercial", "Droit du travail", "Droit de la famille"]

/-- Another possible iteration order of the same set (different hash seed). -/
def setOrder2 : List String → List String :=
  fun _ => ["Droit de la famille", "Droit du travail", "Droit commercial"]

/-- `json.loads` restricted to the one input `"{}"`: the empty JSON object. -/
def jsonLoadsVide : String → Option JValue :=
  fun s => if s = "\x7b\x7d" then some (JValue.obj []) else none

/-- A `json.loads` on input that is not JSON: parsing always raises (`none`). -/
def jsonLoadsEchec : String → Option JValue := fun _ => none

/-! Helper lemmas about the Python string primitives. -/

theorem data_append (s t : String) : (s ++ t).data = s.data ++ t.data := rfl

theorem lstartsWith_refl : ∀ l : List Char, lstartsWith l l = true
  | [] => rfl
  | c :: cs => by simp [lstartsWith, lstartsWith_refl cs]

theorem lstartsWith_append_self : ∀ p rest : List Char, lstartsWith p (p ++ rest) = true
  | [], _ => rfl
  | c :: cs, rest => by simp [lstartsWith, lstartsWith_append_self cs rest]

theorem lstartsWith_of_append : ∀ p q s : List Char,
    lstartsWith (p ++ q) s = true → lstartsWith p s = true
  | [], _, _, _ => rfl
  | _ :: _, _, [], h => by simp [lstartsWith] at h
  | a :: as, q, c :: cs, h => by
    simp only [List.cons_append, lstartsWith, Bool.and_eq_true] at h ⊢
    exact ⟨h.1, lstartsWith_of_append as q cs h.2⟩

theorem mem_of_lstartsWith : ∀ a l : List Char, lstartsWith a l = true → ∀ x ∈ a, x ∈ l
  | [], _, _, x, hx => absurd hx (List.not_mem_nil x)
  | _ :: _, [], h, _, _ => by simp [lstartsWith] at h
  | a :: as, c :: cs, h, x, hx => by
    simp only [lstartsWith, Bool.and_eq_true, beq_iff_eq] at h
    rcases List.mem_cons.1 hx with rfl | hx
    · exact h.1 ▸ List.mem_cons_self c cs
    · exact List.mem_cons_of_mem c (mem_of_lstartsWith as cs h.2 x hx)

theorem mem_of_lInfix : ∀ a l : List Char, lInfix a l = true → ∀ x ∈ a, x ∈ l
  | a, [], h, x, hx => by
    simp only [lInfix, List.isEmpty_iff] at h
    subst h; exact absurd hx (List.not_mem_nil x)
  | a, c :: cs, h, x, hx => by
    simp only [lInfix, Bool.or_eq_true] at h
    rcases h with h | h
    · exact mem_of_lstartsWith a (c :: cs) h x hx
    · exact List.mem_cons_of_mem c (mem_of_lInfix a cs h x hx)

theorem lInfix_self : ∀ l : List Char, lInfix l l = true
  | [] => rfl
  | c :: cs => by simp [lInfix, lstartsWith_refl]

theorem lInfix_append_left (a : List Char) : ∀ pre l : List Char,
    lInfix a l = true → lInfix a (pre ++ l) = true
  | [], _, h => h
  | p :: ps, l, h => by simp [lInfix, lInfix_append_left a ps l h]

theorem lstartsWith_extend : ∀ a l post : List Char,
    lstartsWith a l = true → lstartsWith a (l ++ post) = true
  | [], _, _, _ => rfl
  | _ :: _, [], _, h => by simp [lstartsWith] at h
  | a :: as, c :: cs, post, h => by
    simp only [lstartsWith, Bool.and_eq_true, List.cons_append] at h ⊢
    exact ⟨h.1, lstartsWith_extend as cs post h.2⟩

theorem lInfix_append_right (a : List Char) : ∀ l post : List Char,
    lInfix a l = true → lInfix a (l ++ post) = true
  | [], post, h => by
    simp only [lInfix, List.isEmpty_iff] at h
    subst h
    cases post with
    | nil => rfl
    | cons c cs => simp [lInfix, lstartsWith]
  | c :: cs, post, h => by
    simp only [lInfix, Bool.or_eq_true] at h ⊢
    rcases h with h | h
    · exact Or.inl (lstartsWith_extend a (c :: cs) post h)
    · exact Or.inr (lInfix_append_right a cs post h)

theorem foldl_scoreTokens (f4 f2 f1 : String → Nat) : ∀ (l : List String) (base : Nat),
    l.foldl (fun score mot =>
        if 3 < mot.length then score + f4 mot + f2 mot + f1 mot else score) base
      = base + ((l.filter (fun mot => 3 < mot.length)).map
          (fun mot => f4 mot + f2 mot + f1 mot)).sum
  | [], base => by simp
  | m :: l, base => by
    by_cases h : 3 < m.length <;>
      simp [List.foldl_cons, List.filter_cons, h, foldl_scoreTokens f4 f2 f1 l] <;> omega

/-! Helper lemmas about the stable descending sort. -/

theorem insertScoreDesc_perm (x : RankedMatch) :
    ∀ l : List RankedMatch, List.Perm (insertScoreDesc x l) (x :: l)
  | [] => List.Perm.refl _
  | y :: ys => by
    simp only [insertScoreDesc]
    by_cases h : y.score ≤ x.score
    · rw [if_pos h]
    · rw [if_neg h]
      exact ((insertScoreDesc_perm x ys).cons y).trans (List.Perm.swap x y ys)

theorem sortScoreDesc_perm : ∀ l : List RankedMatch, List.Perm (sortScoreDesc l) l
  | [] => List.Perm.refl _
  | x :: xs =>
    (insertScoreDesc_perm x (sortScoreDesc xs)).trans ((sortScoreDesc_perm xs).cons x)

theorem insertScoreDesc_pairwise (x : RankedMatch) :
    ∀ l : List RankedMatch, l.Pairwise (fun a b => b.score ≤ a.score) →
      (insertScoreDesc x l).Pairwise (fun a b => b.score ≤ a.score)
  | [], _ => List.pairwise_singleton _ x
  | y :: ys, h => by
    simp only [insertScoreDesc]
    rcases List.pairwise_cons.1 h with ⟨hy, hys⟩
    by_cases hc : y.score ≤ x.score
    · rw [if_pos hc]
      refine List.pairwise_cons.2 ⟨fun z hz => ?_, h⟩
      rcases List.mem_cons.1 hz with rfl | hz
      · exact hc
      · exact le_trans (hy z hz) hc
    · rw [if_neg hc]
      refine List.pairwise_cons.2 ⟨fun z hz => ?_, insertScoreDesc_pairwise x ys hys⟩
      rcases List.mem_cons.1 ((insertScoreDesc_perm x ys).mem_iff.1 hz) with rfl | h'
      · exact le_of_lt (Nat.lt_of_not_le hc)
      · exact hy z h'

theorem sortScoreDesc_pairwise :
    ∀ l : List RankedMatch, (sortScoreDesc l).Pairwise (fun a b => b.score ≤ a.score)
  | [] => List.Pairwise.nil
  | x :: xs => insertScoreDesc_pairwise x (sortScoreDesc xs) (sortScoreDesc_pairwise xs)

theorem filter_insertScoreDesc (s : Nat) (x : RankedMatch) :
    ∀ l : List RankedMatch,
      (insertScoreDesc x l).filter (fun r => r.score == s)
        = if x.score = s then x :: l.filter (fun r => r.score == s)
          else l.filter (fun r => r.score == s)
  | [] => by
    by_cases h : x.score = s <;> simp [insertScoreDesc, List.filter_cons, h]
  | y :: ys => by
    simp only [insertScoreDesc]
    by_cases hc : y.score ≤ x.score
    · rw [if_pos hc]
      by_cases hx : x.score = s <;> simp [List.filter_cons, hx]
    · rw [if_neg hc]
      have hlt : x.score < y.score := Nat.lt_of_not_le hc
      by_cases hx : x.score = s
      · have hy : ¬ y.score = s := by omega
        simp [List.filter_cons, hx, hy, filter_insertScoreDesc s x ys]
      · by_cases hy : y.score = s <;>
          simp [List.filter_cons, hx, hy, filter_insertScoreDesc s x ys]

theorem filter_sortScoreDesc (s : Nat) :
    ∀ l : List RankedMatch,
      (sortScoreDesc l).filter (fun r => r.score == s) = l.filter (fun r => r.score == s)
  | [] => rfl
  | x :: xs => by
    by_cases hx : x.score = s <;>
      simp [sortScoreDesc, filter_insertScoreDesc, List.filter_cons, hx,
            filter_sortScoreDesc s xs]

theorem mem_resultatsBruts_pos {cat : Catalog} {query : String} {mots_cles : List String}
    {r : RankedMatch} (h : r ∈ resultatsBruts cat query mots_cles) : 0 < r.score := by
  simp only [resultatsBruts, List.mem_flatMap, List.mem_filterMap] at h
  rcases h with ⟨d, _, p, _, hp⟩
  by_cases hs : 0 < scorePrestation (pyLower query) mots_cles d.2.label p.2
  · simp only [hs, if_pos] at hp
    cases hp
    exact hs
  · simp [hs] at hp

/-! Helper lemmas about stripping, lower-casing and set-list orders. -/

theorem dropWhile_eq_self_of_head (p : Char → Bool) :
    ∀ l : List Char, (∀ c, l.head? = some c → p c = false) → l.dropWhile p = l
  | [], _ => rfl
  | c :: cs, h => by
    have hc := h c rfl
    simp [List.dropWhile_cons, hc]

theorem pyStripL_eq_self (l : List Char)
    (hh : ∀ c, l.head? = some c → isPySpace c = false)
    (hl : ∀ c, l.getLast? = some c → isPySpace c = false) : pyStripL l = l := by
  unfold pyStripL
  rw [dropWhile_eq_self_of_head _ l hh,
      dropWhile_eq_self_of_head _ l.reverse
        (fun c hc => hl c (by rwa [List.head?_reverse] at hc)),
      List.reverse_reverse]

theorem pyCharLower_not_upper (c : Char) :
    ¬ (65 ≤ (pyCharLower c).toNat ∧ (pyCharLower c).toNat ≤ 90) := by
  unfold pyCharLower
  split
  · rename_i h
    obtain ⟨h1, h2⟩ := h
    generalize c.toNat = n at h1 h2 ⊢
    interval_cases n <;> decide
  · rename_i h
    exact h

theorem mem_pyLower_not_upper {t : String} {c : Char} (hc : c ∈ (pyLower t).data) :
    ¬ (65 ≤ c.toNat ∧ c.toNat ≤ 90) := by
  simp only [pyLower, List.mem_map] at hc
  rcases hc with ⟨b, _, rfl⟩
  exact pyCharLower_not_upper b

theorem isSetListOf_length {l m : List String} (h : isSetListOf l m) :
    m.length = l.dedup.length :=
  List.Perm.length_eq
    (List.perm_of_nodup_nodup_toFinset_eq h.1 (List.nodup_dedup l)
      (Finset.ext (fun x => by
        simp only [List.mem_toFinset, List.mem_dedup]
        exact h.2 x)))

/-! The claims. -/

/-- Claim C1: for every session state and AnalysisResult produced by a turn,
`handle_turn` leaves `prestations_actuelles` and `urgence_detectee` exactly as
they were when the result carries no recommendation, and overwrites them with
the new list and the result's urgency flag when it carries at least one. -/
theorem claim_C1_turn_frame (s : Session) (u : String) (a : AnalysisResult) :
    (a.prestations_recommandees = [] →
      (handle_turn s u a).prestations_actuelles = s.prestations_actuelles ∧
      (handle_turn s u a).urgence_detectee = s.urgence_detectee) ∧
    (a.prestations_recommandees ≠ [] →
      (handle_turn s u a).prestations_actuelles = some a.prestations_recommandees ∧
      (handle_turn s u a).urgence_detectee = a.urgence_detectee) := by
  constructor
  · intro h
    simp [handle_turn, h]
  · intro h
    simp [handle_turn, List.isEmpty_iff, h]

/-- Witness for C1 at a concrete populated session: an empty result leaves the
shortlist and flag alone, a non-empty result overwrites both. -/
theorem claim_C1_turn_frame_witness :
    ((handle_turn sessionPleine "bonjour" analyseSansReco).prestations_actuelles
        = sessionPleine.prestations_actuelles ∧
     (handle_turn sessionPleine "bonjour" analyseSansReco).urgence_detectee
        = sessionPleine.urgence_detectee) ∧
    ((handle_turn sessionPleine "bonjour" analyseAvecReco).prestations_actuelles
        = some analyseAvecReco.prestations_recommandees ∧
     (handle_turn sessionPleine "bonjour" analyseAvecReco).urgence_detectee
        = analyseAvecReco.urgence_detectee) :=
  ⟨(claim_C1_turn_frame sessionPleine "bonjour" analyseSansReco).1 rfl,
   (claim_C1_turn_frame sessionPleine "bonjour" analyseAvecReco).2 (by decide)⟩

/-- Claim C2: the ranker's score of a (domain, prestation) pair, as accumulated
by the source's running sum, equals the spec's additive formula: +3/+2 keyword
bonuses plus, per occurrence of each query token longer than 3 characters,
+4 on the label, +2 on the definition, +1 on the domain label. -/
theorem claim_C2_score_formula (query : String) (mots_cles : List String)
    (domaine_label : String) (p : Prestation) :
    scorePrestation (pyLower query) mots_cles domaine_label p
      = score_spec query mots_cles domaine_label p := by
  simp only [scorePrestation, score_spec]
  exact foldl_scoreTokens _ _ _ _ _

/-- Claim C7 counterexample: resetting a session that holds a shortlist and a
raised urgency flag does not clear them — only `messages` is cleared, refuting
"all three cleared unconditionally". -/
theorem claim_C7_counterexample :
    ¬ ((reset_session sessionPleine).messages = [] ∧
       (reset_session sessionPleine).prestations_actuelles = none ∧
       (reset_session sessionPleine).urgence_detectee = false) := by
  decide

/-- Claim C7 as amended: the reset action clears `messages` unconditionally and
leaves `prestations_actuelles` and `urgence_detectee` untouched. -/
theorem claim_C7_reset_amended (s : Session) :
    (reset_session s).messages = [] ∧
    (reset_session s).prestations_actuelles = s.prestations_actuelles ∧
    (reset_session s).urgence_detectee = s.urgence_detectee :=
  ⟨rfl, rfl, rfl⟩

/-- Claim C9: the display loop renders exactly the recommendations whose
(domain id, prestation id) pair resolves in the catalog, in order; a dangling
reference contributes no card and raises no lookup failure. -/
theorem claim_C9_affichage (cat : Catalog) (urgence : Bool)
    (recs : List Recommandation) :
    afficher_recommandations cat urgence recs
      = recs.filterMap (fun r =>
          (lookupPrestation cat r.domaine_id r.prestation_id).map
            (fun dp => afficher_prestation_card dp.1 dp.2 urgence)) := by
  induction recs with
  | nil => rfl
  | cons r rs ih =>
    simp only [afficher_recommandations, List.filterMap_cons]
    cases h : lookupPrestation cat r.domaine_id r.prestation_id with
    | none => simpa using ih
    | some dp => simpa using ih

/-- Claim C10: the keyword extractor returns an ordered, duplicate-free
subsequence of the vocabulary in declaration order, and a vocabulary term
containing an ASCII uppercase character can never be returned, because
membership is tested against the lower-cased input. -/
theorem claim_C10_extraction (texte : String) :
    List.Sublist (extraire_mots_cles texte) mots_cles_juridiques ∧
    (extraire_mots_cles texte).Nodup ∧
    (∀ mot : String, (∃ c ∈ mot.data, 65 ≤ c.toNat ∧ c.toNat ≤ 90) →
      mot ∉ extraire_mots_cles texte) := by
  refine ⟨List.filter_sublist _, List.Nodup.filter _ (by decide), ?_⟩
  rintro mot ⟨c, hc, hup⟩ hmem
  have hmem' : mot ∈ mots_cles_juridiques.filter (fun m => pyIn m (pyLower texte)) := hmem
  have h := (List.mem_filter.1 hmem').2
  exact mem_pyLower_not_upper (mem_of_lInfix mot.data (pyLower texte).data h c hc) hup

/-- Witness for C10: the vocabulary term `RGPD` contains an uppercase character
and is not extracted, even from an input that mentions RGPD verbatim. -/
theorem claim_C10_extraction_witness :
    (∃ c ∈ "RGPD".data, 65 ≤ c.toNat ∧ c.toNat ≤ 90) ∧
    "RGPD" ∉ extraire_mots_cles "mes données et le RGPD" :=
  ⟨⟨'R', by decide, by decide⟩,
   (claim_C10_extraction "mes données et le RGPD").2.2 "RGPD" ⟨'R', by decide, by decide⟩⟩

/-- Claim C3: the ranker's output has at most 5 entries, every returned score is
positive, scores are weakly decreasing, and equal-score entries keep the
catalog's enumeration order: each equal-score slice of the output is a
subsequence of the unsorted catalog-order accumulation `resultatsBruts`. -/
theorem claim_C3_ranker_shape (cat : Catalog) (query : String) (mots_cles : List String) :
    (rechercher_prestations_pertinentes cat query mots_cles).length ≤ 5 ∧
    (∀ r ∈ rechercher_prestations_pertinentes cat query mots_cles, 0 < r.score) ∧
    (rechercher_prestations_pertinentes cat query mots_cles).Pairwise
      (fun a b => b.score ≤ a.score) ∧
    (∀ s : Nat,
      List.Sublist
        ((rechercher_prestations_pertinentes cat query mots_cles).filter
          (fun r => r.score == s))
        (resultatsBruts cat query mots_cles)) := by
  refine ⟨List.length_take_le 5 _, ?_, ?_, ?_⟩
  · intro r hr
    exact mem_resultatsBruts_pos
      ((sortScoreDesc_perm _).mem_iff.1 (List.mem_of_mem_take hr))
  · exact List.Pairwise.sublist (List.take_sublist 5 _) (sortScoreDesc_pairwise _)
  · intro s
    have h1 := List.Sublist.filter (fun r => r.score == s)
      (List.take_sublist 5 (sortScoreDesc (resultatsBruts cat query mots_cles)))
    rw [filter_sortScoreDesc] at h1
    exact h1.trans (List.filter_sublist _)

/-- Witness for C3 on the concrete test catalog and the query "bail". -/
theorem claim_C3_ranker_shape_witness :
    (rechercher_prestations_pertinentes catTest "bail" []).length ≤ 5 ∧
    0 < (⟨"Droit commercial", "d1", "p1",
          ⟨"Bail commercial", "Redaction de bail", 500⟩, 6⟩ : RankedMatch).score ∧
    List.Sublist
      ((rechercher_prestations_pertinentes catTest "bail" []).filter
        (fun r => r.score == 6))
      (resultatsBruts catTest "bail" []) :=
  ⟨(claim_C3_ranker_shape catTest "bail" []).1,
   (claim_C3_ranker_shape catTest "bail" []).2.1 _ (by decide),
   (claim_C3_ranker_shape catTest "bail" []).2.2.2 6⟩

/-- Claim C6: with `urgent = false` the price is the plain tarif; with
`urgent = true` it is the integer truncation of `tarif * 1.5` (natural division
`3 * tarif / 2`, truncation toward zero, not round-to-nearest), the label marks
the urgency and still shows the original tarif; in particular 101 gives 151.
The hypothesis records the domain on which CPython's `int(tarif * 1.5)` float
computation is exact, so that the rational model coincides with the source. -/
theorem claim_C6_prix (tarif : Nat) (h : 3 * tarif ≤ 2 ^ 53) :
    afficher_prix tarif false = (tarif, toString tarif ++ "€") ∧
    (afficher_prix tarif true).1 = 3 * tarif / 2 ∧
    pyIn (toString tarif ++ "€") (afficher_prix tarif true).2 = true ∧
    pyIn "urgent" (afficher_prix tarif true).2 = true ∧
    (afficher_prix 101 true).1 = 151 := by
  refine ⟨rfl, rfl, ?_, ?_, rfl⟩
  · show pyIn (toString tarif ++ "€")
      (toString (facteur_urgence_num * tarif / facteur_urgence_den) ++
        "€ (urgent) - Normal: " ++ toString tarif ++ "€") = true
    simp only [pyIn, data_append]
    rw [List.append_assoc]
    exact lInfix_append_left _ _ _ (lInfix_self _)
  · show pyIn "urgent"
      (toString (facteur_urgence_num * tarif / facteur_urgence_den) ++
        "€ (urgent) - Normal: " ++ toString tarif ++ "€") = true
    simp only [pyIn, data_append]
    rw [List.append_assoc, List.append_assoc]
    exact lInfix_append_left _ _ _ (lInfix_append_right _ _ _ (by decide))

/-- Witness for C6 at tarif 101: the truncated urgent price is 151 (not 152)
and the urgent label still quotes the base price. -/
theorem claim_C6_prix_witness :
    3 * 101 ≤ 2 ^ 53 ∧
    (afficher_prix 101 true).1 = 151 ∧
    pyIn (toString 101 ++ "€") (afficher_prix 101 true).2 = true :=
  ⟨by norm_num,
   (claim_C6_prix 101 (by norm_num)).2.2.2.2,
   (claim_C6_prix 101 (by norm_num)).2.2.1⟩

/-- Claim C8 counterexample: two legitimate iteration orders of the same Python
set of domain labels produce different clarification texts for the same matches
and query, so the generator is not run-to-run deterministic and the listed
domains need not be the first 3 distinct ones in match order. -/
theorem claim_C8_counterexample :
    isSetListOf (resTroisDomaines.map (fun r => r.domaine))
      (setOrder1 (resTroisDomaines.map (fun r => r.domaine))) ∧
    isSetListOf (resTroisDomaines.map (fun r => r.domaine))
      (setOrder2 (resTroisDomaines.map (fun r => r.domaine))) ∧
    generer_questions_clarification setOrder1 resTroisDomaines "bail" ≠
      generer_questions_clarification setOrder2 resTroisDomaines "bail" := by
  refine ⟨⟨by decide, ?_⟩, ⟨by decide, ?_⟩, by decide⟩
  · intro x
    simp only [setOrder1, resTroisDomaines, List.map_cons, List.map_nil, List.mem_cons,
      List.not_mem_nil, or_false]
  · intro x
    simp only [setOrder2, resTroisDomaines, List.map_cons, List.map_nil, List.mem_cons,
      List.not_mem_nil, or_false]
    tauto

/-- Claim C8 as amended: given the set-iteration order as a parameter, the
generator is deterministic; for non-empty matches the branch is keyed solely on
whether the number of distinct domain labels exceeds 2, and the more-than-2
branch quotes the first 3 labels of the set-iteration order (an arbitrary order,
not necessarily first-encountered). -/
theorem claim_C8_clarification_amended (pySetList : List String → List String)
    (resultats : List RankedMatch) (query : String)
    (h : isSetListOf (resultats.map (fun r => r.domaine))
      (pySetList (resultats.map (fun r => r.domaine)))) :
    generer_questions_clarification pySetList resultats query =
      if resultats.isEmpty then msgAucunePrestation
      else if 2 < (resultats.map (fun r => r.domaine)).dedup.length then
        questionsPlusDe2Domaines (pySetList (resultats.map (fun r => r.domaine)))
      else questionsPeuDeDomaines := by
  have hlen := isSetListOf_length h
  simp only [generer_questions_clarification, hlen]

/-- Witness for the amended C8 on three concrete matches over three domains. -/
theorem claim_C8_clarification_amended_witness :
    generer_questions_clarification setOrder1 resTroisDomaines "divorce" =
      (if resTroisDomaines.isEmpty then msgAucunePrestation
       else if 2 < (resTroisDomaines.map (fun r => r.domaine)).dedup.length then
         questionsPlusDe2Domaines (setOrder1 (resTroisDomaines.map (fun r => r.domaine)))
       else questionsPeuDeDomaines) :=
  claim_C8_clarification_amended setOrder1 resTroisDomaines "divorce"
    ⟨by decide, fun x => by
      simp only [setOrder1, resTroisDomaines, List.map_cons, List.map_nil, List.mem_cons,
        List.not_mem_nil, or_false]⟩

/-- Claim C4 counterexample: a completion that parses as valid JSON but carries
none of the expected keys (the empty object) is returned as-is by
`analyser_avec_gpt`, not replaced by the safe default, so "missing keys" do not
trigger the fallback. -/
theorem claim_C4_counterexample :
    analyser_avec_gpt jsonLoadsVide (Except.ok "\x7b\x7d") = JValue.obj [] ∧
    analyser_avec_gpt jsonLoadsVide (Except.ok "\x7b\x7d") ≠ safeDefaultResult := by
  refine ⟨rfl, ?_⟩
  intro hcontra
  have h : JValue.obj ([] : List (String × JValue)) = safeDefaultResult := hcontra
  simp [safeDefaultResult] at h

/-- Claim C4 as amended: when the completion call fails, or the fence-stripped
text does not parse as JSON, `analyser_avec_gpt` returns exactly the safe
default dictionary and raises nothing; a successfully parsed JSON value is
returned as-is even when expected keys are missing. -/
theorem claim_C4_analyse_amended (jsonLoads : String → Option JValue)
    (err texte : String)
    (hfail : jsonLoads (stripCodeFences (pyStrip texte)) = none) :
    analyser_avec_gpt jsonLoads (Except.error err) = safeDefaultResult ∧
    analyser_avec_gpt jsonLoads (Except.ok texte) = safeDefaultResult :=
  ⟨rfl, by simp [analyser_avec_gpt, hfail]⟩

/-- Witness for the amended C4: a transport error and a non-JSON completion
both land on the safe default. -/
theorem claim_C4_analyse_amended_witness :
    analyser_avec_gpt jsonLoadsEchec (Except.error "transport") = safeDefaultResult ∧
    analyser_avec_gpt jsonLoadsEchec (Except.ok "pas du json") = safeDefaultResult :=
  claim_C4_analyse_amended jsonLoadsEchec "transport" "pas du json" rfl

theorem pyStrip_eq_self_of_ends (s : String)
    (hh : ∀ c, s.data.head? = some c → isPySpace c = false)
    (hl : ∀ c, s.data.getLast? = some c → isPySpace c = false) : pyStrip s = s := by
  show String.mk (pyStripL s.data) = s
  rw [pyStripL_eq_self s.data hh hl]

theorem pySlice_wrap (pre post t : String) :
    pySlice (pre ++ t ++ post) pre.data.length post.data.length = t := by
  show String.mk _ = t
  rw [data_append, data_append, List.append_assoc, List.drop_left]
  have h1 : (pre.data ++ (t.data ++ post.data)).length - post.data.length - pre.data.length
      = t.data.length := by
    simp only [List.length_append]
    omega
  rw [h1, List.take_left]

theorem not_startsWith_json (t : String) (h3 : t.data.head? ≠ some 'j') :
    lstartsWith "json".data (t.data ++ "```".data) = false := by
  cases ht : t.data with
  | nil => rfl
  | cons c cs =>
    have hc : ('j' == c) = false := by
      refine beq_eq_false_iff_ne.2 (fun hj => h3 ?_)
      rw [ht, ← hj]
      rfl
    simp [lstartsWith, hc]

/-- Claim C5: wrapping a well-formed JSON completion text in a leading
fence marker (tagged `json` or plain) and a trailing fence yields the same
analysis result as the unwrapped text.  "Well-formed JSON completion text" is
rendered by the hypotheses: no surrounding whitespace, not itself starting with
a fence marker or the letter j (no JSON value does), and parsed by `jsonLoads`. -/
theorem claim_C5_fence_roundtrip (jsonLoads : String → Option JValue)
    (t : String) (v : JValue)
    (h1 : pyStrip t = t) (h2 : pyStartswith t "```" = false)
    (h3 : t.data.head? ≠ some 'j') (h4 : jsonLoads t = some v) :
    analyser_avec_gpt jsonLoads (Except.ok ("```json" ++ t ++ "```"))
      = analyser_avec_gpt jsonLoads (Except.ok t) ∧
    analyser_avec_gpt jsonLoads (Except.ok ("```" ++ t ++ "```"))
      = analyser_avec_gpt jsonLoads (Except.ok t) := by
  have hcj : pyStartswith t "```json" = false := by
    cases hx : pyStartswith t "```json"
    · rfl
    · have hn : ¬ (pyStartswith t "```" = true) := by simp [h2]
      exact absurd (lstartsWith_of_append "```".data "json".data t.data hx) hn
  have hJ : stripCodeFences (pyStrip t) = t := by
    rw [h1]
    simp [stripCodeFences, hcj, h2]
  have hstrip1 : pyStrip ("```json" ++ t ++ "```") = "```json" ++ t ++ "```" := by
    refine pyStrip_eq_self_of_ends _ (fun c hc => ?_) (fun c hc => ?_)
    · rw [show (("```json" ++ t ++ "```").data).head? = some '\x60' from rfl] at hc
      exact Option.some.inj hc ▸ rfl
    · rw [data_append, data_append, List.getLast?_append] at hc
      rw [show (("```".data).getLast?.or (("```json".data ++ t.data).getLast?))
            = some '\x60' from rfl] at hc
      exact Option.some.inj hc ▸ rfl
  have hstrip2 : pyStrip ("```" ++ t ++ "```") = "```" ++ t ++ "```" := by
    refine pyStrip_eq_self_of_ends _ (fun c hc => ?_) (fun c hc => ?_)
    · rw [show (("```" ++ t ++ "```").data).head? = some '\x60' from rfl] at hc
      exact Option.some.inj hc ▸ rfl
    · rw [data_append, data_append, List.getLast?_append] at hc
      rw [show (("```".data).getLast?.or (("```".data ++ t.data).getLast?))
            = some '\x60' from rfl] at hc
      exact Option.some.inj hc ▸ rfl
  have hfence1 : stripCodeFences ("```json" ++ t ++ "```") = t := by
    have hcond : pyStartswith ("```json" ++ t ++ "```") "```json" = true := rfl
    simp only [stripCodeFences, hcond, if_true]
    show pySlice ("```json" ++ t ++ "```") ("```json".data.length) ("```".data.length) = t
    exact pySlice_wrap "```json" "```" t
  have hfence2 : stripCodeFences ("```" ++ t ++ "```") = t := by
    have hcondj : pyStartswith ("```" ++ t ++ "```") "```json" = false :=
      not_startsWith_json t h3
    have hcond3 : pyStartswith ("```" ++ t ++ "```") "```" = true := rfl
    simp only [stripCodeFences, hcondj, hcond3, Bool.false_eq_true, if_false, if_true]
    show pySlice ("```" ++ t ++ "```") ("```".data.length) ("```".data.length) = t
    exact pySlice_wrap "```" "```" t
  constructor
  · simp only [analyser_avec_gpt]
    rw [hstrip1, hfence1, hJ]
  · simp only [analyser_avec_gpt]
    rw [hstrip2, hfence2, hJ]

/-- Witness for C5 with a tiny parser recognising the empty JSON object. -/
theorem claim_C5_fence_roundtrip_witness :
    pyStrip "\x7b\x7d" = "\x7b\x7d" ∧
    analyser_avec_gpt jsonLoadsVide (Except.ok ("```json" ++ "\x7b\x7d" ++ "```"))
      = analyser_avec_gpt jsonLoadsVide (Except.ok "\x7b\x7d") ∧
    analyser_avec_gpt jsonLoadsVide (Except.ok ("```" ++ "\x7b\x7d" ++ "```"))
      = analyser_avec_gpt jsonLoadsVide (Except.ok "\x7b\x7d") :=
  ⟨by decide,
   (claim_C5_fence_roundtrip jsonLoadsVide "\x7b\x7d" (JValue.obj [])
      (by decide) (by decide) (by decide) rfl).1,
   (claim_C5_fence_roundtrip jsonLoadsVide "\x7b\x7d" (JValue.obj [])
      (by decide) (by decide) (by decide) rfl).2⟩
